import Mathlib

/-!
Verification of the "ventout" (Listener AI) repository against its
natural-language specification.

The repository ships the client (`frontend/src/api.js`, the `App.jsx`
component embedded in `README.md`) and bootstrap scripts; the backend
core described by the spec (`backend/app/services/safety.py`,
`sessions.py` — classifier adapter, session state machine, cooldown
and rate limiter, response shaper) is referenced by the README layout
but its source is not part of the repository.  Those components are
therefore modelled here directly from the spec's words; the client
code is embedded from its source.
-/

namespace Ventout

/-- Modelled from the spec: the conversational policy state of a Session
(§3 Data Model).  The backend module `backend/app/services/sessions.py`
that declares it is not in the repository. -/
inductive Mode where
  | INTAKE
  | VENT
  | REFLECT
  | REGULATE
  | PLAN
  | SAFETY
  | COOLDOWN
deriving DecidableEq, Repr

/-- Modelled from the spec: the safety level of a SafetyAssessment,
`safe | elevated | high-risk` (§3).  The backend module
`backend/app/services/safety.py` that declares it is not in the
repository. -/
inductive SafetyLevel where
  | safe
  | elevated
  | highRisk
deriving DecidableEq, Repr

/-- Numeric severity used to compare safety levels (safe < elevated < high-risk). -/
def SafetyLevel.rank : SafetyLevel → Nat
  | .safe => 0
  | .elevated => 1
  | .highRisk => 2

/-- The more severe of two safety levels. -/
def SafetyLevel.max (a b : SafetyLevel) : SafetyLevel :=
  if b.rank ≤ a.rank then a else b

/-- Modelled from the spec: the Escalation/Loop Detector's reason code
`looping | escalating | none` (§4.2).  The backend module that declares
it is not in the repository. -/
inductive DetectorSignal where
  | none
  | looping
  | escalating
deriving DecidableEq, Repr

/-- Modelled from the spec: the default mode progression used when no
gate fires (§4.3): "default progression INTAKE→VENT on first non-intake
turn"; otherwise the mode implied by the user's intent, abstracted here
as keeping the current mode.  The backend module that implements it is
not in the repository. -/
def defaultProgression (currentMode : Mode) : Mode :=
  if currentMode = Mode.INTAKE then Mode.VENT else currentMode

/-- Modelled from the spec: the Session State Machine transition function
`next(currentMode, safetyLevel, detectorSignal, cooldownActive) ->
(newMode, allowed)` (§4.3).  The backend module
`backend/app/services/sessions.py` that implements it is not in the
repository.  Branch order per the spec: cooldown gate, then high-risk,
then detector interruption, then intent/default progression. -/
def next (currentMode : Mode) (safetyLevel : SafetyLevel)
    (detectorSignal : DetectorSignal) (cooldownActive : Bool) : Mode × Bool :=
  if cooldownActive then
    (Mode.COOLDOWN, false)
  else if safetyLevel = SafetyLevel.highRisk then
    (Mode.SAFETY, true)
  else if detectorSignal = DetectorSignal.looping ∨ detectorSignal = DetectorSignal.escalating then
    (Mode.REGULATE, true)
  else
    (defaultProgression currentMode, true)

/-- `p` is a prefix of the second character list. -/
def charsStartsWith : List Char → List Char → Bool
  | [], _ => true
  | _ :: _, [] => false
  | p :: ps, c :: cs => p == c && charsStartsWith ps cs

/-- `p` occurs as a contiguous sublist of the second character list. -/
def charsHasSub (p : List Char) : List Char → Bool
  | [] => charsStartsWith p []
  | c :: cs => charsStartsWith p (c :: cs) || charsHasSub p cs

/-- Substring/phrase match on turn text, as used by the keyword guardrail. -/
def containsPhrase (text phrase : String) : Bool :=
  charsHasSub phrase.toList text.toList

/-- Modelled from the spec: curated high-severity phrases (explicit
imminent-harm language) that force `high-risk` (§4.1).  The curated
list itself is not in the repository; representative phrases are used. -/
def highSeverityPhrases : List String :=
  ["kill myself", "end my life", "going to hurt"]

/-- Modelled from the spec: curated keyword lists per reason tag
(self-harm, violence, revenge, harassment) whose match forces at least
`elevated` (§4.1).  The curated list itself is not in the repository;
representative phrases are used. -/
def guardrailPhrases : List String :=
  ["hurt myself", "hate him", "get revenge", "make them pay", "worthless"]

/-- The text matches some high-severity guardrail phrase. -/
def hasHighSeverity (text : String) : Bool :=
  highSeverityPhrases.any (containsPhrase text)

/-- The text matches some guardrail phrase (high-severity ones included). -/
def hasGuardrailMatch (text : String) : Bool :=
  hasHighSeverity text || guardrailPhrases.any (containsPhrase text)

/-- Modelled from the spec: the keyword-guardrail verdict (§4.1): a
high-severity match forces `high-risk`, any other match forces at least
`elevated`, otherwise `safe`. -/
def keywordLevel (text : String) : SafetyLevel :=
  if hasHighSeverity text then SafetyLevel.highRisk
  else if hasGuardrailMatch text then SafetyLevel.elevated
  else SafetyLevel.safe

/-- Modelled from the spec: the external classifier's high threshold (§4.1). -/
def highThreshold : ℚ := 85 / 100

/-- Modelled from the spec: the external classifier's low threshold (§4.1). -/
def lowThreshold : ℚ := 50 / 100

/-- Modelled from the spec: mapping of the external classifier's
continuous score to a safety level (§4.1): above the high threshold
`high-risk`, above the low threshold `elevated`, otherwise `safe`. -/
def classifyScore (score : ℚ) : SafetyLevel :=
  if highThreshold < score then SafetyLevel.highRisk
  else if lowThreshold < score then SafetyLevel.elevated
  else SafetyLevel.safe

/-- Modelled from the spec: the Harm/Intent Classifier Adapter's combined
safety level — the maximum of the keyword-guardrail verdict and the
external classifier's verdict (§4.1). -/
def combinedLevel (text : String) (score : ℚ) : SafetyLevel :=
  SafetyLevel.max (keywordLevel text) (classifyScore score)

/-- Modelled from the spec: a SafetyAssessment — level, matched reason
tags, confidence (§3).  The backend module that declares it is not in
the repository. -/
structure SafetyAssessment where
  level : SafetyLevel
  reasons : List String
  confidence : ℚ
deriving DecidableEq, Repr

/-- Modelled from the spec: the escalation threshold of consecutive
SAFETY turns that triggers a cooldown, "e.g. 2 within a short span"
(§4.4). -/
def escalationThreshold : Nat := 2

/-- Modelled from the spec: the base cooldown window of 60 seconds (§4.4). -/
def baseCooldown : Nat := 60

/-- Modelled from the spec: the cap on the doubled cooldown window (§4.4
says "doubling on repeated triggers up to a cap" without fixing the cap). -/
def cooldownCap : Nat := 960

/-- Modelled from the spec: the sliding-window request limit, "N requests
per window W" per user (§4.4); the concrete N is not fixed by the spec. -/
def windowLimit : Nat := 10

/-- Modelled from the spec: the retry-after reported when the rate window
(not a cooldown) rejects a request; the spec does not fix the formula,
the window length is used. -/
def windowRetry : Nat := 60

/-- Modelled from the spec: the per-user CooldownState — request count in
the current rate window, cooldown-until timestamp, consecutive-escalation
counter (§3); a trigger counter realises the doubling of repeated
cooldowns (§4.4).  The backend module that owns it is not in the
repository.  `cooldownUntil = 0` means no cooldown was ever imposed. -/
structure CooldownState where
  windowCount : Nat
  cooldownUntil : Nat
  escalations : Nat
  triggerCount : Nat
deriving DecidableEq, Repr

/-- Modelled from the spec: the Cooldown Manager's bookkeeping after a
turn's effective mode resolves (§4.4): a SAFETY turn increments the
consecutive-escalation counter and, at the threshold, imposes a cooldown
window (base 60s, doubled per previous trigger, capped) irrespective of
the remaining rate-window budget; a non-SAFETY turn resets the counter
to zero. -/
def recordTurn (st : CooldownState) (mode : Mode) (now : Nat) : CooldownState :=
  if mode = Mode.SAFETY then
    let esc := st.escalations + 1
    if escalationThreshold ≤ esc then
      { st with
        escalations := esc
        triggerCount := st.triggerCount + 1
        cooldownUntil := now + min (baseCooldown * 2 ^ st.triggerCount) cooldownCap }
    else
      { st with escalations := esc }
  else
    { st with escalations := 0 }

/-- Modelled from the spec: `admit(userId) -> allowed, retryAfterSeconds`
(§4.4): an active cooldown rejects with the remaining seconds; otherwise
the sliding-window counter is checked and incremented.  Per §5 the whole
read-check-and-increment runs inside an exclusive per-user critical
section (lock or atomic compare-and-update), so one call is one atomic
step on the CooldownState. -/
def admission (st : CooldownState) (now : Nat) : Bool × Nat × CooldownState :=
  if now < st.cooldownUntil then
    (false, st.cooldownUntil - now, st)
  else if st.windowCount < windowLimit then
    (true, 0, { st with windowCount := st.windowCount + 1 })
  else
    (false, windowRetry, st)

/-- Modelled from the spec: an execution of `n` concurrent `admit` calls
for one user.  Because §5 mandates an exclusive critical section around
each call's read-check-and-increment, every interleaving of the calls is
a sequence of atomic `admission` steps, and all calls are identical, so
an execution is determined by `n`.  Returns the number of admitted calls
and the final state. -/
def admissionRun : Nat → CooldownState → Nat → Nat × CooldownState
  | 0, st, _ => (0, st)
  | n + 1, st, now =>
    let r := admission st now
    let rest := admissionRun n r.2.2 now
    ((if r.1 then 1 else 0) + rest.1, rest.2)

/-- Modelled from the spec: a ResponseDirective — the target mode
template with its static constraints, and the reason tags surfaced to
the UI (§4.5). -/
structure ResponseDirective where
  templateTag : String
  maxSentences : Nat
  allowAdvice : Bool
  surfacedReasons : List String
deriving DecidableEq, Repr

/-- Modelled from the spec: the Response Shaper
`shape(mode, safetyAssessment) -> ResponseDirective` (§4.5), a pure
mapping over the finite mode table: VENT ≤2 sentences no unsolicited
advice, REFLECT paraphrase+label+validate, REGULATE exactly one
grounding exercise, PLAN one concrete step, SAFETY emergency-contact
framing; surfaced reasons come from the assessment.  The backend module
that implements it is not in the repository. -/
def shape (mode : Mode) (assessment : SafetyAssessment) : ResponseDirective :=
  match mode with
  | Mode.INTAKE => ⟨"intake-ask-listen-or-calm", 2, false, assessment.reasons⟩
  | Mode.VENT => ⟨"vent-brief-acknowledgement", 2, false, assessment.reasons⟩
  | Mode.REFLECT => ⟨"reflect-paraphrase-label-validate", 3, false, assessment.reasons⟩
  | Mode.REGULATE => ⟨"regulate-one-grounding-exercise", 3, false, assessment.reasons⟩
  | Mode.PLAN => ⟨"plan-one-concrete-step", 3, true, assessment.reasons⟩
  | Mode.SAFETY => ⟨"safety-emergency-contact-grounding", 4, false, assessment.reasons⟩
  | Mode.COOLDOWN => ⟨"cooldown-blocked", 0, false, assessment.reasons⟩

/-- An HTTP response as seen by the client helpers in
`frontend/src/api.js`: the `ok` flag and the JSON-parsed body
(`res.json()`). -/
structure HttpResponse (β : Type) where
  ok : Bool
  body : β

/-- From `frontend/src/api.js` `login`: throw `Error("Login failed")`
when the response is not ok, otherwise return the parsed JSON body. -/
def login {β : Type} (res : HttpResponse β) : Except String β :=
  if res.ok then Except.ok res.body else Except.error "Login failed"

/-- From `frontend/src/api.js` `uploadVoiceNote`: throw
`Error("Voice note failed")` when the response is not ok, otherwise
return the parsed JSON body. -/
def uploadVoiceNote {β : Type} (res : HttpResponse β) : Except String β :=
  if res.ok then Except.ok res.body else Except.error "Voice note failed"

/-- From `frontend/src/api.js` `getRealtimeToken`: throw
`Error("Realtime token failed")` when the response is not ok, otherwise
return the parsed JSON body. -/
def getRealtimeToken {β : Type} (res : HttpResponse β) : Except String β :=
  if res.ok then Except.ok res.body else Except.error "Realtime token failed"

/-- From the `App` component's cooldown effect (embedded in
`README.md`): `setCooldown((prev) => (prev > 0 ? prev - 1 : 0))`,
run once per second while a cooldown is displayed. -/
def tickCooldown (prev : ℤ) : ℤ :=
  if 0 < prev then prev - 1 else 0

/-- The visual style of the mood orb: `color`, `borderRadius`, `filter`
properties, from the `orbStyles` literal in the embedded `App.jsx`. -/
structure OrbStyle where
  color : String
  radius : String
  filterStyle : String
deriving DecidableEq, Repr

/-- `orbStyles.low` from the embedded `App.jsx`. -/
def lowStyle : OrbStyle := ⟨"#6dd3c2", "50%", "blur(2px)"⟩

/-- `orbStyles.medium` from the embedded `App.jsx`. -/
def mediumStyle : OrbStyle := ⟨"#f4b860", "45% 55% 50% 50%", "blur(1px)"⟩

/-- `orbStyles.high` from the embedded `App.jsx`. -/
def highStyle : OrbStyle := ⟨"#ff5f5f", "40% 60% 30% 70%", "drop-shadow(0 0 12px #ff5f5f)"⟩

/-- A JavaScript value that `orbStyles[key]` can evaluate to: one of the
literal's own style objects, a property inherited from
`Object.prototype` (a function, or `Object.prototype` itself for
`__proto__` — in every case a truthy object), or `undefined`. -/
inductive JsValue where
  | styleObj (s : OrbStyle)
  | inherited (name : String)
  | undef
deriving DecidableEq, Repr

/-- JavaScript truthiness of such a value: objects and functions are
truthy, `undefined` is falsy. -/
def JsValue.truthy : JsValue → Bool
  | .undef => false
  | _ => true

/-- The own property names of `Object.prototype`, which bracket access
on a plain object literal reaches through the prototype chain. -/
def objectProtoKeys : List String :=
  ["constructor", "hasOwnProperty", "isPrototypeOf", "propertyIsEnumerable",
   "toLocaleString", "toString", "valueOf", "__defineGetter__", "__defineSetter__",
   "__lookupGetter__", "__lookupSetter__", "__proto__"]

/-- `orbStyles[key]` from the embedded `App.jsx`, with JavaScript
bracket-access semantics on the plain object literal: an own key
(`low`, `medium`, `high`) yields its style object; otherwise the
prototype chain is consulted, so a property name of `Object.prototype`
yields the inherited (truthy) value; any other key yields `undefined`. -/
def orbStylesGet (key : String) : JsValue :=
  if key = "low" then JsValue.styleObj lowStyle
  else if key = "medium" then JsValue.styleObj mediumStyle
  else if key = "high" then JsValue.styleObj highStyle
  else if objectProtoKeys.contains key then JsValue.inherited key
  else JsValue.undef

/-- The style properties the `MoodOrb` div actually renders with:
`background`, `borderRadius` and `filter` read off the chosen value;
reading them off a non-style value (an inherited function or object)
gives `undefined` for each. -/
structure RenderedOrb where
  background : Option String
  radius : Option String
  filterStyle : Option String
deriving DecidableEq, Repr

/-- The rendered properties of an own style object. -/
def styleRender (s : OrbStyle) : RenderedOrb :=
  ⟨some s.color, some s.radius, some s.filterStyle⟩

/-- `MoodOrb({ level = "low" })` from the embedded `App.jsx`: the
default parameter replaces an `undefined` level by `"low"`, then
`orbStyles[level] || orbStyles.low` chooses the first truthy value, and
the div renders with that value's `color`/`borderRadius`/`filter`
properties. -/
def moodOrbRender (level : Option String) : RenderedOrb :=
  let key := level.getD "low"
  let v := orbStylesGet key
  match (if v.truthy then v else orbStylesGet "low") with
  | JsValue.styleObj s => styleRender s
  | _ => ⟨none, none, none⟩

/-- The set of safety levels the spec allows at the public surface:
`safe | elevated | high-risk` (§3, §6). -/
def specSafetyLevels : List String := ["safe", "elevated", "high-risk"]

/-- From `handleUpload` in the embedded `App.jsx`: the orb intensity the
client derives from the `safety_level` field of a voice-note response —
`json.safety_level === "blocked" ? "high" : json.safety_level ===
"elevated" ? "medium" : "low"`. -/
def intensityOfLevel (safetyLevel : String) : String :=
  if safetyLevel = "blocked" then "high"
  else if safetyLevel = "elevated" then "medium"
  else "low"

/-! ## Helper lemmas -/

/-- The combined maximum is at least as severe as its left argument. -/
theorem rank_le_max_left (a b : SafetyLevel) :
    SafetyLevel.rank a ≤ SafetyLevel.rank (SafetyLevel.max a b) := by
  cases a <;> cases b <;> decide

/-- `high-risk` absorbs any other level under the maximum. -/
theorem max_highRisk_left (b : SafetyLevel) :
    SafetyLevel.max SafetyLevel.highRisk b = SafetyLevel.highRisk := by
  cases b <;> rfl

/-! ## Claim theorems -/

/-- C1: the session transition function `next` maps every input with
`cooldownActive = true` to exactly `(COOLDOWN, allowed = false)`,
whatever the current mode, safety level and detector signal. -/
theorem next_cooldown_gate (m : Mode) (sl : SafetyLevel) (ds : DetectorSignal) :
    next m sl ds true = (Mode.COOLDOWN, false) := rfl

/-- C2: with no active cooldown, a `high-risk` safety level makes `next`
return `(SAFETY, allowed = true)`, whatever the current mode and
detector signal. -/
theorem next_high_risk_safety (m : Mode) (ds : DetectorSignal) :
    next m SafetyLevel.highRisk ds false = (Mode.SAFETY, true) := rfl

/-- C3: the classifier adapter's level is the maximum of the
keyword-guardrail level and the external-classifier level; a
high-severity phrase match forces `high-risk` for every external score,
and any guardrail match keeps the level at least `elevated`. -/
theorem classifier_combination (text : String) (score : ℚ) :
    combinedLevel text score = SafetyLevel.max (keywordLevel text) (classifyScore score) ∧
    (hasHighSeverity text = true → combinedLevel text score = SafetyLevel.highRisk) ∧
    (hasGuardrailMatch text = true →
      SafetyLevel.rank SafetyLevel.elevated ≤ SafetyLevel.rank (combinedLevel text score)) := by
  refine ⟨rfl, ?_, ?_⟩
  · intro hHigh
    unfold combinedLevel keywordLevel
    rw [hHigh]
    simp [max_highRisk_left]
  · intro hMatch
    have hkey : SafetyLevel.rank SafetyLevel.elevated ≤ SafetyLevel.rank (keywordLevel text) := by
      unfold keywordLevel
      by_cases h : hasHighSeverity text = true
      · rw [h]; simp [SafetyLevel.rank]
      · simp only [h]
        rw [if_neg (by simp [h]), if_pos hMatch]
    calc SafetyLevel.rank SafetyLevel.elevated ≤ SafetyLevel.rank (keywordLevel text) := hkey
      _ ≤ SafetyLevel.rank (combinedLevel text score) := rank_le_max_left _ _

/-- Witness for C3 at concrete inputs: "i want to end my life" matches a
high-severity phrase and classifies `high-risk` at score 0; "i will get
revenge" matches the guardrail and classifies at least `elevated` at
score 0. -/
theorem classifier_combination_app :
    hasHighSeverity "i want to end my life" = true ∧
    combinedLevel "i want to end my life" 0 = SafetyLevel.highRisk ∧
    hasGuardrailMatch "i will get revenge" = true ∧
    SafetyLevel.rank SafetyLevel.elevated ≤
      SafetyLevel.rank (combinedLevel "i will get revenge" 0) :=
  ⟨by decide, (classifier_combination "i want to end my life" 0).2.1 (by decide),
   by decide, (classifier_combination "i will get revenge" 0).2.2 (by decide)⟩

/-- C4: a SAFETY turn at the escalation threshold imposes the cooldown
window (base 60 seconds, doubled per previous trigger, capped),
whatever the remaining rate-window budget; two SAFETY turns from a
reset counter impose exactly 60 seconds; one non-SAFETY turn resets the
escalation counter to zero; and a request 30 seconds into a 60-second
cooldown is rejected with `retryAfterSeconds = 30`. -/
theorem cooldown_manager_behaviour (st : CooldownState) (now : Nat) (m : Mode) :
    (m ≠ Mode.SAFETY → (recordTurn st m now).escalations = 0) ∧
    (escalationThreshold ≤ st.escalations + 1 →
      (recordTurn st Mode.SAFETY now).cooldownUntil =
        now + min (baseCooldown * 2 ^ st.triggerCount) cooldownCap) ∧
    (st.escalations = 0 → st.triggerCount = 0 →
      (recordTurn (recordTurn st Mode.SAFETY now) Mode.SAFETY now).cooldownUntil = now + 60) ∧
    (st.cooldownUntil = now + 60 → admission st (now + 30) = (false, 30, st)) := by
  refine ⟨?_, ?_, ?_, ?_⟩
  · intro hm
    simp [recordTurn, hm]
  · intro h
    simp [recordTurn, h]
  · intro h0 ht
    simp [recordTurn, escalationThreshold, baseCooldown, cooldownCap, h0, ht]
  · intro hc
    have hlt : now + 30 < st.cooldownUntil := by omega
    simp [admission, hlt]
    omega

/-- Witness for C4 at concrete inputs: a VENT turn resets the counter; a
fresh user's two SAFETY turns at time 100 set the cooldown to expire at
160; a request at time 130 during that cooldown is rejected with 30
seconds remaining. -/
theorem cooldown_manager_behaviour_app :
    (recordTurn ⟨0, 0, 0, 0⟩ Mode.VENT 100).escalations = 0 ∧
    (recordTurn (recordTurn ⟨0, 0, 0, 0⟩ Mode.SAFETY 100) Mode.SAFETY 100).cooldownUntil = 160 ∧
    admission ⟨1, 160, 2, 1⟩ 130 = (false, 30, ⟨1, 160, 2, 1⟩) := by
  refine ⟨(cooldown_manager_behaviour ⟨0, 0, 0, 0⟩ 100 Mode.VENT).1 (by decide), ?_, ?_⟩
  · have h := (cooldown_manager_behaviour ⟨0, 0, 0, 0⟩ 100 Mode.VENT).2.2.1 rfl rfl
    simpa using h
  · exact (cooldown_manager_behaviour ⟨1, 160, 2, 1⟩ 100 Mode.VENT).2.2.2 rfl

/-- C5: an execution of `n` admit calls for one user — each call one
atomic step, per the critical section §5 mandates, so every interleaving
is such a sequence — admits exactly `min n K` calls where `K` is the
remaining rate-window budget, and admits none once the cooldown boundary
has been crossed. -/
theorem admission_run_count (n : Nat) (st : CooldownState) (now : Nat) :
    (st.cooldownUntil ≤ now →
      (admissionRun n st now).1 = min n (windowLimit - st.windowCount)) ∧
    (now < st.cooldownUntil → (admissionRun n st now).1 = 0) := by
  induction n generalizing st with
  | zero => simp [admissionRun]
  | succ n ih =>
    constructor
    · intro hc
      have hnot : ¬ now < st.cooldownUntil := by omega
      by_cases hw : st.windowCount < windowLimit
      · have h1 : admission st now =
            (true, 0, { st with windowCount := st.windowCount + 1 }) := by
          simp [admission, hnot, hw]
        have h2 := (ih { st with windowCount := st.windowCount + 1 }).1 hc
        simp [admissionRun, h1, h2]
        omega
      · have h1 : admission st now = (false, windowRetry, st) := by
          simp [admission, hnot, hw]
        have h2 := (ih st).1 hc
        simp [admissionRun, h1, h2]
        omega
    · intro hc
      have h1 : admission st now = (false, st.cooldownUntil - now, st) := by
        simp [admission, hc]
      have h2 := (ih st).2 hc
      simp [admissionRun, h1, h2]

/-- Witness for C5 at concrete inputs: with 8 of 10 window slots used,
3 calls admit exactly 2; with an active cooldown, 2 calls admit 0. -/
theorem admission_run_count_app :
    (admissionRun 3 ⟨8, 0, 0, 0⟩ 0).1 = 2 ∧ (admissionRun 2 ⟨0, 50, 0, 0⟩ 10).1 = 0 := by
  constructor
  · have h := (admission_run_count 3 ⟨8, 0, 0, 0⟩ 0).1 (by decide)
    rw [h]
    decide
  · exact (admission_run_count 2 ⟨0, 50, 0, 0⟩ 10).2 (by decide)

/-- C7: the Response Shaper is a pure function — two calls of `shape`
with identical `(mode, safetyAssessment)` arguments return identical
ResponseDirective values. -/
theorem shape_deterministic (m m2 : Mode) (a a2 : SafetyAssessment)
    (hm : m = m2) (ha : a = a2) : shape m a = shape m2 a2 := by
  rw [hm, ha]

/-- Witness for C7 at a concrete input: two identical calls on a VENT
turn with a safe assessment agree. -/
theorem shape_deterministic_app :
    shape Mode.VENT ⟨SafetyLevel.safe, [], 0⟩ = shape Mode.VENT ⟨SafetyLevel.safe, [], 0⟩ :=
  shape_deterministic Mode.VENT Mode.VENT ⟨SafetyLevel.safe, [], 0⟩ ⟨SafetyLevel.safe, [], 0⟩
    rfl rfl

/-- C8: each client request helper returns the parsed JSON body exactly
when the response's `ok` flag is true, and throws its error (returning
no value) exactly when `ok` is false. -/
theorem api_ok_behaviour {β : Type} (res : HttpResponse β) :
    (res.ok = true →
      login res = Except.ok res.body ∧
      uploadVoiceNote res = Except.ok res.body ∧
      getRealtimeToken res = Except.ok res.body) ∧
    (res.ok = false →
      login res = Except.error "Login failed" ∧
      uploadVoiceNote res = Except.error "Voice note failed" ∧
      getRealtimeToken res = Except.error "Realtime token failed") := by
  constructor <;> intro h <;>
    simp [login, uploadVoiceNote, getRealtimeToken, h]

/-- Witness for C8 at concrete responses: an ok response's body is
returned by `login`, a non-ok response makes `uploadVoiceNote` and
`getRealtimeToken` throw. -/
theorem api_ok_behaviour_app :
    login (⟨true, 7⟩ : HttpResponse Nat) = Except.ok 7 ∧
    uploadVoiceNote (⟨false, 7⟩ : HttpResponse Nat) = Except.error "Voice note failed" ∧
    getRealtimeToken (⟨false, 7⟩ : HttpResponse Nat) = Except.error "Realtime token failed" :=
  ⟨((api_ok_behaviour ⟨true, 7⟩).1 rfl).1,
   ((api_ok_behaviour ⟨false, 7⟩).2 rfl).2.1,
   ((api_ok_behaviour ⟨false, 7⟩).2 rfl).2.2⟩

/-- One tick of the countdown maps the displayed value `n` (as an
integer) to `n - 1` and never below zero; `n` ticks from `n` reach 0. -/
theorem tick_iterate_eq_zero (n : ℕ) : tickCooldown^[n] (n : ℤ) = 0 := by
  induction n with
  | zero => simp [tickCooldown]
  | succ k ih =>
    rw [Function.iterate_succ_apply]
    have hpos : (0 : ℤ) < (k : ℤ) + 1 := by positivity
    have h : tickCooldown ((k : ℤ) + 1) = (k : ℤ) := by
      simp [tickCooldown, hpos]
    push_cast
    rw [h, ih]

/-- C9: the client cooldown updater decrements positive values by one,
maps non-positive values to 0, never goes negative from a non-negative
start, and reaches 0 after `v` ticks. -/
theorem tickCooldown_behaviour (v : ℤ) (hv : 0 ≤ v) :
    (0 < v → tickCooldown v = v - 1) ∧
    (v ≤ 0 → tickCooldown v = 0) ∧
    0 ≤ tickCooldown v ∧
    tickCooldown^[v.toNat] v = 0 := by
  refine ⟨?_, ?_, ?_, ?_⟩
  · intro h
    simp [tickCooldown, h]
  · intro h
    have hne : ¬ (0 : ℤ) < v := by omega
    simp [tickCooldown, hne]
  · unfold tickCooldown
    split <;> omega
  · have hcast : ((v.toNat : ℕ) : ℤ) = v := Int.toNat_of_nonneg hv
    calc tickCooldown^[v.toNat] v = tickCooldown^[v.toNat] ((v.toNat : ℕ) : ℤ) := by
          rw [hcast]
      _ = 0 := tick_iterate_eq_zero v.toNat

/-- Witness for C9 at a concrete input: from a 3-second cooldown the
counter stays non-negative and is 0 after three ticks. -/
theorem tickCooldown_behaviour_app :
    0 ≤ tickCooldown 3 ∧ tickCooldown^[(3 : ℤ).toNat] 3 = 0 :=
  ⟨(tickCooldown_behaviour 3 (by decide)).2.2.1,
   (tickCooldown_behaviour 3 (by decide)).2.2.2⟩

/-- C10 counterexample: the universal low-style fallback fails at the
concrete level `"toString"` — bracket access on the `orbStyles` literal
reaches the inherited `Object.prototype.toString`, a truthy value, so
`orbStyles[level] || orbStyles.low` does not fall back and the orb
renders with `undefined` `background`/`borderRadius`/`filter` instead
of the low style. -/
theorem moodOrb_proto_cex :
    objectProtoKeys.contains "toString" = true ∧
    (orbStylesGet "toString").truthy = true ∧
    moodOrbRender (some "toString") = ⟨none, none, none⟩ ∧
    moodOrbRender (some "toString") ≠ styleRender lowStyle := by
  exact ⟨by decide, rfl, rfl, by decide⟩

/-- C10 amended: an undefined level and every string that is neither an
own key (low, medium, high) nor a property name inherited from
`Object.prototype` render with the low style; the exact keys low,
medium, high select their own styles; for an inherited property name
the truthy inherited value defeats the fallback and the orb renders
with undefined style properties. -/
theorem moodOrb_levels (s : String)
    (h1 : s ≠ "low") (h2 : s ≠ "medium") (h3 : s ≠ "high")
    (h4 : objectProtoKeys.contains s = false) :
    moodOrbRender none = styleRender lowStyle ∧
    moodOrbRender (some "low") = styleRender lowStyle ∧
    moodOrbRender (some "medium") = styleRender mediumStyle ∧
    moodOrbRender (some "high") = styleRender highStyle ∧
    moodOrbRender (some s) = styleRender lowStyle ∧
    (∀ k ∈ objectProtoKeys, moodOrbRender (some k) = ⟨none, none, none⟩) := by
  refine ⟨rfl, rfl, rfl, rfl, ?_, ?_⟩
  · have h4m : s ∉ objectProtoKeys := by simpa using h4
    simp [moodOrbRender, orbStylesGet, h1, h2, h3, h4m, JsValue.truthy, styleRender]
  · intro k hk
    fin_cases hk <;> rfl

/-- Witness for the amended C10 at a concrete input: the out-of-table,
non-inherited level "spiky" falls back to the low style. -/
theorem moodOrb_levels_app :
    ("spiky" : String) ≠ "low" ∧ moodOrbRender (some "spiky") = styleRender lowStyle :=
  ⟨by decide,
   (moodOrb_levels "spiky" (by decide) (by decide) (by decide) (by decide)).2.2.2.2.1⟩

/-- C6 counterexample: the client's decoding of the `safety_level`
field distinguishes the value "blocked", which is outside the spec's
set {safe, elevated, high-risk}: "blocked" is the only value the client
maps to the high orb intensity, while the spec's "high-risk" falls into
the low fallback — so the surface the client is written to consume is
not limited to the spec's three values. -/
theorem surface_levels_cex :
    ¬ ("blocked" ∈ specSafetyLevels) ∧
    intensityOfLevel "blocked" = "high" ∧
    intensityOfLevel "high-risk" = "low" ∧
    (∀ l ∈ specSafetyLevels, intensityOfLevel l ≠ "high") := by
  refine ⟨by decide, rfl, rfl, ?_⟩
  intro l hl
  fin_cases hl <;> decide

/-- C6 amended: the safety levels the client surface distinguishes are
"blocked" (high intensity) and "elevated" (medium); every other value of
`safety_level` — the spec's "safe" and "high-risk" included — maps to
the low-intensity fallback. -/
theorem surface_levels_amended (l : String) (h1 : l ≠ "blocked") (h2 : l ≠ "elevated") :
    intensityOfLevel "blocked" = "high" ∧
    intensityOfLevel "elevated" = "medium" ∧
    intensityOfLevel l = "low" := by
  refine ⟨rfl, rfl, ?_⟩
  simp [intensityOfLevel, h1, h2]

/-- Witness for the amended C6 at a concrete input: the spec's
"high-risk" value maps to the low-intensity fallback. -/
theorem surface_levels_amended_app :
    ("high-risk" : String) ≠ "blocked" ∧ intensityOfLevel "high-risk" = "low" :=
  ⟨by decide, (surface_levels_amended "high-risk" (by decide) (by decide)).2.2⟩

end Ventout
